import Mathlib

/-!
Verification development for the `mpl_nonblock` package: a shallow embedding of
the `hold_windows` wait loop (`core.py`), its inline `_wait_for_enter` worker
and `_make_anykey_checker` trigger factory, the `_cbreak` terminal-mode context
manager (`core.py` / `terminal.py`), the `_warn_once` registry (`_helpers.py`)
and the `_is_gui_backend` classifier (`backends.py`).

External effects (stdin, Matplotlib, the OS) are modelled by an environment
record `Env` (which platform probes succeed) and a per-tick oracle `Tick`
(what `entered.is_set()`, `plt.get_fignums()` and the key poll would observe).
A run of `hold_windows` yields a trace of observable actions, grouped per loop
iteration, plus an outcome. The source leaves two exception paths open —
`tty.setcbreak` raising `termios.error` when entering the raw-mode context on
a non-tty stdin that has a file descriptor, and the `plt.pause` call inside
the pump's `except` handler raising out of the loop — and `hold_windowsE`
represents both, coinciding with `hold_windows` when neither fires.
-/

namespace MplNonblock

/-- `_warn_once` from `_helpers.py`: if `key` is already in the warned-once
registry, do nothing; otherwise add it and emit the warning. Returns the
updated registry and whether a warning was emitted. -/
def _warn_once (reg : List String) (key : String) : List String × Bool :=
  if key ∈ reg then (reg, false) else (key :: reg, true)

/-- A sequence of `_warn_once` calls threaded through the registry, collecting
the keys of the warnings actually emitted. -/
def _warn_once_calls (reg : List String) : List String → List String × List String
  | [] => (reg, [])
  | k :: ks =>
    let w := _warn_once reg k
    let r := _warn_once_calls w.1 ks
    (r.1, (if w.2 then [k] else []) ++ r.2)

/-- Python `str.lower()`, as a character-wise map (kernel-reducible analogue
of `String.toLower`). -/
def pyLower (s : String) : String := ⟨s.data.map Char.toLower⟩

/-- Python `str.strip()`: drop leading and trailing whitespace
(kernel-reducible analogue of `String.trim`). -/
def pyStrip (s : String) : String :=
  ⟨((s.data.dropWhile Char.isWhitespace).reverse.dropWhile Char.isWhitespace).reverse⟩

/-- Python `str.endswith(suf)` (kernel-reducible analogue of
`String.endsWith`). -/
def strEndsWith (s suf : String) : Bool := suf.data.isSuffixOf s.data

/-- Python substring containment `needle in hay`. -/
def strContainsSub (hay needle : String) : Bool :=
  hay.data.tails.any (fun t => needle.data.isPrefixOf t)

/-- The `non_gui` set literal inside `_is_gui_backend` (`backends.py`). -/
def _non_gui_set : List String :=
  ["agg", "module://matplotlib_inline.backend_inline", "inline", "nbagg",
   "webagg", "pdf", "ps", "svg", "cairo", "template"]

/-- `_is_gui_backend` from `backends.py`: lowercase and strip the backend name,
reject the known non-GUI names and anything mentioning the inline backend,
accept `macosx` and any name ending in `agg`, and reject the rest. -/
def _is_gui_backend (backend : String) : Bool :=
  let b := pyStrip (pyLower backend)
  if b ∈ _non_gui_set then false
  else if strContainsSub b "matplotlib_inline" then false
  else if strContainsSub b "backend_inline" then false
  else if b == "macosx" then true
  else if strEndsWith b "agg" then true
  else false

/-- Outcome of the single `sys.stdin.readline()` call made by the Enter
worker: either it returned a string (at EOF it returns `""` without raising),
or it raised an exception. -/
inductive ReadOutcome where
  | line (s : String)
  | err
deriving DecidableEq

/-- `_wait_for_enter` from `core.py` (the Enter worker body): run the single
`sys.stdin.readline()`; if it raised, return early; otherwise `entered.set()`.
The result is the final value of the `entered` flag (initially unset). -/
def _wait_for_enter : ReadOutcome → Bool
  | .line _ => true
  | .err => false

/-- Whether the wrapped body of a context manager exited normally or by
raising. -/
inductive BodyExit where
  | normal
  | raised
deriving DecidableEq

/-- `_cbreak` from `core.py` / `terminal.py`, as a function on the terminal
attribute word `α`:
`old = termios.tcgetattr(fd)` (on failure `old = None`), then
`tty.setcbreak(fd)` (modelled by `setcbreakAttrs`, covering success or partial
effect), then the body runs (possibly raising), and in the `finally` block, if
`old is not None`, `termios.tcsetattr(fd, TCSADRAIN, old)` restores it when it
succeeds (`tcsetattrOk`; failures are swallowed). The body exit, normal or
raising, propagates unchanged past the `finally`. Arguments `tcgetattrOk` and
`tcsetattrOk` say whether the two `termios` calls succeed. -/
def _cbreak {α : Type} (tcgetattrOk : Bool) (setcbreakAttrs : α → α)
    (tcsetattrOk : Bool) (body : BodyExit) (init : α) : α × BodyExit :=
  let old : Option α := if tcgetattrOk then some init else none
  let mid := setcbreakAttrs init
  let final :=
    match old with
    | some o => if tcsetattrOk then o else mid
    | none => mid
  (final, body)

/-- Observable actions of one `hold_windows` run. -/
inductive Action where
  | printPrompt (s : String)
  | warn (key : String)
  | spawnWorker
  | cbreakEnter
  | cbreakExit
  | checkEntered (r : Bool)
  | checkFigs (r : Bool)
  | checkKey (r : Bool)
  | pump
deriving DecidableEq

/-- How a `hold_windows` run ended: returned, raised the trigger-validation
`ValueError`, propagated an environment exception (`termios.error` from
`tty.setcbreak`, or a failure of the `plt.pause` call inside the pump's
`except` handler — produced only by the exception-aware `hold_windowsE`), or
the tick schedule ran out while the loop was still waiting. -/
inductive Outcome where
  | ret
  | raised (msg : String)
  | fuelOut
  | envError
deriving DecidableEq

/-- Per-tick oracle: whether the worker thread has set `entered` by this
tick's check, what `plt.get_fignums()` reports (`figsOpen`), and what the
`AnyKey` poll `key_pressed()` would observe. -/
structure Tick where
  workerFires : Bool
  figsOpen : Bool
  keyPressed : Bool
deriving DecidableEq

/-- Environment of one `hold_windows` call: the Matplotlib backend string,
the result of `sys.stdin.isatty()` (`none` models the call raising), whether
`sys.platform` starts with `win`, and which platform probes inside
`_make_anykey_checker` succeed. -/
structure Env where
  backend : String
  isatty : Option Bool
  platformWin : Bool
  msvcrtOk : Bool
  posixImportsOk : Bool
  filenoOk : Bool
deriving DecidableEq

/-- What `_make_anykey_checker` returns: whether the context manager is the
POSIX `_cbreak()` (versus `nullcontext()`), the `supported` flag, and the
`_warn_once` key used on the unsupported paths. -/
structure CheckerResult where
  usesCbreak : Bool
  supported : Bool
  warnKey : Option String
deriving DecidableEq

/-- `_make_anykey_checker` nested in `hold_windows` (`core.py`): on Windows,
`import msvcrt` yields a polling checker with no terminal resource, else warn
under `hold_windows:anykey_import` and report unsupported; on POSIX, failing
`import select, termios, tty` warns under the same key, a failing
`sys.stdin.fileno()` warns under `hold_windows:anykey_fileno`, and otherwise
the `_cbreak()` context manager plus `select`-based checker is returned. -/
def _make_anykey_checker (e : Env) : CheckerResult :=
  if e.platformWin then
    if e.msvcrtOk then ⟨false, true, none⟩
    else ⟨false, false, some "hold_windows:anykey_import"⟩
  else if !e.posixImportsOk then ⟨false, false, some "hold_windows:anykey_import"⟩
  else if !e.filenoOk then ⟨false, false, some "hold_windows:anykey_fileno"⟩
  else ⟨true, true, none⟩

/-- Prompt argument of `hold_windows`: the `_PROMPT_DEFAULT` sentinel, `None`,
or an explicit string. -/
inductive PromptArg where
  | dflt
  | noPrompt
  | str (s : String)
deriving DecidableEq

/-- The `while not entered.is_set() and _any_figures_open():` loop of
`hold_windows`, producing one action list per iteration plus the outcome.
`anyKey`: the `trigger` argument was `"AnyKey"` (so the body calls
`key_pressed()`); `keySup`: the checker reported support (otherwise
`key_pressed` is the constant-false fallback lambda); `worker`: a
`_wait_for_enter` thread was spawned, so the schedule may set `entered`.
Each iteration evaluates `entered.is_set()`, then (short-circuit `and`)
`_any_figures_open()`, then for `AnyKey` the `key_pressed()` poll (a true poll
does `entered.set()` and `break`), and otherwise pumps GUI events once. -/
def holdLoop (anyKey keySup worker : Bool) :
    Bool → List Tick → List (List Action) × Outcome
  | _, [] => ([], .fuelOut)
  | entered, t :: rest =>
    let e := entered || (worker && t.workerFires)
    if e then ([[.checkEntered true]], .ret)
    else if !t.figsOpen then ([[.checkEntered false, .checkFigs false]], .ret)
    else if anyKey then
      if keySup && t.keyPressed then
        ([[.checkEntered false, .checkFigs true, .checkKey true]], .ret)
      else
        let r := holdLoop anyKey keySup worker e rest
        ([.checkEntered false, .checkFigs true, .checkKey false, .pump] :: r.1, r.2)
    else
      let r := holdLoop anyKey keySup worker e rest
      ([.checkEntered false, .checkFigs true, .pump] :: r.1, r.2)

/-- Result of one `hold_windows` call: the actions before the loop (prompt,
warnings, worker spawn, cbreak entry), the per-iteration action lists, the
actions after the loop (cbreak restore), the outcome, and the final warn-once
registry. -/
structure RunResult where
  prelude : List Action
  tickTraces : List (List Action)
  post : List Action
  outcome : Outcome
  reg : List String
deriving DecidableEq

/-- The flat observable trace of a run. -/
def RunResult.trace (r : RunResult) : List Action :=
  r.prelude ++ r.tickTraces.flatten ++ r.post

/-- The prompt-printing step of `hold_windows`: the `_PROMPT_DEFAULT` sentinel
selects the default text by trigger, `None` prints nothing, and any other
value is printed via `str(prompt)`. -/
def promptActs (prompt : PromptArg) (trigger : String) : List Action :=
  match prompt with
  | .dflt => [.printPrompt (if trigger == "AnyKey" then
      "Press any key to exit..." else "Press Enter to exit...")]
  | .noPrompt => []
  | .str s => [.printPrompt s]

/-- The `_warn_once` call made by `_make_anykey_checker` for warn key `k?`
(none on the supported paths): the updated registry and the emitted warning
actions. -/
def warnOnceActs (reg : List String) (k? : Option String) :
    List String × List Action :=
  match k? with
  | none => (reg, [])
  | some k =>
    let w := _warn_once reg k
    (w.1, if w.2 then [.warn k] else [])

/-- `hold_windows` from `core.py`. In source order: classify the backend and
return if non-GUI; if `only_if_tty`, return when `sys.stdin.isatty()` is false
or raises; raise `ValueError` for a trigger outside `{"Enter", "AnyKey"}`;
print the prompt (default text chosen by trigger, `None` suppresses); for
`"Enter"` spawn the `_wait_for_enter` worker with a `nullcontext()`; for
`"AnyKey"` build the checker, falling back to the worker when unsupported;
then run the wait loop inside `with key_ctx:` (entering `_cbreak` on the
supported POSIX path, and leaving it again when the loop finishes).
The `poll` float argument only sets the pump interval and is not modelled.
This definition assumes the two exception paths the source leaves open do not
fire: entering `with key_ctx:` can raise (`tty.setcbreak` is guarded only by
`finally`, and with a non-tty stdin that has a file descriptor it raises
`termios.error` out of `hold_windows`), and the `plt.pause` call inside the
pump's `except` handler can itself raise out of the loop. `hold_windowsE`
below additionally represents those paths and coincides with this definition
when they do not fire (`hold_windowsE_toTick`). -/
def hold_windows (e : Env) (reg : List String) (prompt : PromptArg)
    (trigger : String) (only_if_tty : Bool) (ticks : List Tick) : RunResult :=
  if !(_is_gui_backend e.backend) then ⟨[], [], [], .ret, reg⟩
  else if only_if_tty && !(e.isatty == some true) then ⟨[], [], [], .ret, reg⟩
  else if trigger != "Enter" && trigger != "AnyKey" then
    ⟨[], [], [], .raised ("Unknown trigger: " ++ trigger), reg⟩
  else if trigger == "Enter" then
    let lr := holdLoop false false true false ticks
    ⟨promptActs prompt trigger ++ [.spawnWorker], lr.1, [], lr.2, reg⟩
  else
    let c := _make_anykey_checker e
    let wa := warnOnceActs reg c.warnKey
    if c.supported then
      let lr := holdLoop true true false false ticks
      ⟨promptActs prompt trigger ++ wa.2 ++
        (if c.usesCbreak then [.cbreakEnter] else []),
       lr.1,
       (if c.usesCbreak then (if lr.2 = .ret then [.cbreakExit] else []) else []),
       lr.2, wa.1⟩
    else
      let lr := holdLoop true false true false ticks
      ⟨promptActs prompt trigger ++ wa.2 ++ [.spawnWorker], lr.1, [], lr.2, wa.1⟩

/-- Action classifiers used to state intra-tick ordering. -/
def isWinCheck : Action → Bool
  | .checkFigs _ => true
  | _ => false

/-- A key-press check in the broad sense of the claims: inspecting either the
shared `entered` flag or the `key_pressed()` poll. -/
def isKeyCheck : Action → Bool
  | .checkKey _ => true
  | .checkEntered _ => true
  | _ => false

/-- The `key_pressed()` poll alone. -/
def isKeyPoll : Action → Bool
  | .checkKey _ => true
  | _ => false

/-- The `entered.is_set()` flag check alone. -/
def isEnteredCheck : Action → Bool
  | .checkEntered _ => true
  | _ => false

def isPump : Action → Bool
  | .pump => true
  | _ => false

def isWarn : Action → Bool
  | .warn _ => true
  | _ => false

/-- `noneAfter trig bad l`: no `bad` action occurs strictly after any `trig`
action in `l`; i.e. every `trig` action precedes every `bad` action. -/
def noneAfter (trig bad : Action → Bool) : List Action → Bool
  | [] => true
  | a :: l => (!(trig a) || l.all (fun x => !(bad x))) && noneAfter trig bad l

/-- Number of event-pump calls in a trace. -/
def countPumps (l : List Action) : Nat := (l.filter isPump).length

/-- Number of warnings emitted in a trace. -/
def countWarns (l : List Action) : Nat := (l.filter isWarn).length

/-- A fully capable POSIX environment on a GUI backend with interactive
stdin. -/
def envPosix : Env := ⟨"TkAgg", some true, false, true, true, true⟩

/-- POSIX environment where `import select, termios, tty` fails. -/
def envPosixNoImports : Env := ⟨"TkAgg", some true, false, true, false, true⟩

/-- GUI backend but `sys.stdin.isatty()` returns `False`. -/
def envNonTty : Env := ⟨"TkAgg", some false, false, true, true, true⟩

/-- Non-GUI (`agg`) backend, everything else capable. -/
def envAgg : Env := ⟨"agg", some true, false, true, true, true⟩

def Outcome.isRaised : Outcome → Bool
  | .raised _ => true
  | _ => false

/-- Actions that can occur inside a loop iteration. -/
def isLoopAct : Action → Bool
  | .checkEntered _ => true
  | .checkFigs _ => true
  | .checkKey _ => true
  | .pump => true
  | _ => false

/-- Terminal-attribute state threaded through a trace: the current attribute
word and the snapshot saved by an open `_cbreak` scope. -/
structure TermState (α : Type) where
  attrs : α
  saved : Option α

/-- Effect of one action on the terminal attributes: entering `_cbreak` saves
the snapshot and applies `tty.setcbreak`; leaving it restores the snapshot;
no other action touches the terminal. -/
def stepTerm {α : Type} (setcbreakAttrs : α → α) (st : TermState α) :
    Action → TermState α
  | .cbreakEnter => ⟨setcbreakAttrs st.attrs, some st.attrs⟩
  | .cbreakExit => ⟨st.saved.getD st.attrs, none⟩
  | _ => st

/-- Run a trace against the terminal-attribute state. -/
def runTerm {α : Type} (setcbreakAttrs : α → α) (st : TermState α)
    (l : List Action) : TermState α :=
  l.foldl (stepTerm setcbreakAttrs) st

/-- Per-tick oracle for the exception-aware model: the `Tick` fields plus
whether the tick's pump step completes (`pumpOk = false` means the
`plt.pause` call inside the `except` handler itself raised, propagating out
of the loop). -/
structure TickE where
  workerFires : Bool
  figsOpen : Bool
  keyPressed : Bool
  pumpOk : Bool
deriving DecidableEq

/-- Forget the pump-failure field. -/
def TickE.toTick (t : TickE) : Tick := ⟨t.workerFires, t.figsOpen, t.keyPressed⟩

/-- The wait loop of `hold_windows` with the pump-failure path represented:
identical to `holdLoop` except that a tick whose pump step raises ends the
loop with a propagated environment exception (`envError`). The pump action is
still recorded, since the call was issued. -/
def holdLoopE (anyKey keySup worker : Bool) :
    Bool → List TickE → List (List Action) × Outcome
  | _, [] => ([], .fuelOut)
  | entered, t :: rest =>
    let e := entered || (worker && t.workerFires)
    if e then ([[.checkEntered true]], .ret)
    else if !t.figsOpen then ([[.checkEntered false, .checkFigs false]], .ret)
    else if anyKey then
      if keySup && t.keyPressed then
        ([[.checkEntered false, .checkFigs true, .checkKey true]], .ret)
      else if !t.pumpOk then
        ([[.checkEntered false, .checkFigs true, .checkKey false, .pump]],
         .envError)
      else
        let r := holdLoopE anyKey keySup worker e rest
        ([.checkEntered false, .checkFigs true, .checkKey false, .pump] :: r.1,
         r.2)
    else if !t.pumpOk then
      ([[.checkEntered false, .checkFigs true, .pump]], .envError)
    else
      let r := holdLoopE anyKey keySup worker e rest
      ([.checkEntered false, .checkFigs true, .pump] :: r.1, r.2)

/-- `hold_windows` with the two exception paths of the source additionally
represented. `setcbreakOk` says whether entering the POSIX `_cbreak` context
succeeds: with a non-tty stdin that has a file descriptor, the `tcgetattr`
inside `_cbreak` raises (so `old = None`), `tty.setcbreak` then raises
`termios.error` before changing any attribute, the `finally` has nothing to
restore, and the exception propagates out of `hold_windows` — modelled as an
`envError` outcome with no cbreak actions in the trace. Each tick's `pumpOk`
says whether its pump step completes (see `holdLoopE`); a pump failure inside
the `with` block still runs the `_cbreak` restore on the way out, hence the
`cbreakExit` in `post` whenever the loop ended (any outcome but `fuelOut`).
With `setcbreakOk = true` and every `pumpOk = true` this coincides with
`hold_windows` (`hold_windowsE_toTick`). -/
def hold_windowsE (setcbreakOk : Bool) (e : Env) (reg : List String)
    (prompt : PromptArg) (trigger : String) (only_if_tty : Bool)
    (ticks : List TickE) : RunResult :=
  if !(_is_gui_backend e.backend) then ⟨[], [], [], .ret, reg⟩
  else if only_if_tty && !(e.isatty == some true) then ⟨[], [], [], .ret, reg⟩
  else if trigger != "Enter" && trigger != "AnyKey" then
    ⟨[], [], [], .raised ("Unknown trigger: " ++ trigger), reg⟩
  else if trigger == "Enter" then
    let lr := holdLoopE false false true false ticks
    ⟨promptActs prompt trigger ++ [.spawnWorker], lr.1, [], lr.2, reg⟩
  else
    let c := _make_anykey_checker e
    let wa := warnOnceActs reg c.warnKey
    if c.supported then
      if c.usesCbreak && !setcbreakOk then
        ⟨promptActs prompt trigger ++ wa.2, [], [], .envError, wa.1⟩
      else
        let lr := holdLoopE true true false false ticks
        ⟨promptActs prompt trigger ++ wa.2 ++
          (if c.usesCbreak then [.cbreakEnter] else []),
         lr.1,
         (if c.usesCbreak then
            (if lr.2 = .fuelOut then [] else [.cbreakExit]) else []),
         lr.2, wa.1⟩
    else
      let lr := holdLoopE true false true false ticks
      ⟨promptActs prompt trigger ++ wa.2 ++ [.spawnWorker], lr.1, [], lr.2,
       wa.1⟩

/-- Every loop iteration's action list is one of five fixed sequences:
flag check fired; window check fired; key poll fired; full `AnyKey` tick with
pump; full `Enter` tick with pump. -/
lemma holdLoop_shapes (ak ks w : Bool) (ts : List Tick) :
    ∀ (en : Bool), ∀ T ∈ (holdLoop ak ks w en ts).1,
      T = [Action.checkEntered true] ∨
      T = [Action.checkEntered false, Action.checkFigs false] ∨
      T = [Action.checkEntered false, Action.checkFigs true, Action.checkKey true] ∨
      T = [Action.checkEntered false, Action.checkFigs true, Action.checkKey false,
           Action.pump] ∨
      T = [Action.checkEntered false, Action.checkFigs true, Action.pump] := by
  induction ts with
  | nil => intro en T hT; simp [holdLoop] at hT
  | cons t rest ih =>
    intro en T hT
    cases hE : (en || (w && t.workerFires)) with
    | true => simp [holdLoop, hE] at hT; simp [hT]
    | false =>
      cases hF : t.figsOpen with
      | false => simp [holdLoop, hE, hF] at hT; simp [hT]
      | true =>
        cases ak with
        | false =>
          simp only [holdLoop, hE, hF] at hT
          simp only [Bool.false_eq_true, if_false, Bool.not_true, if_true] at hT
          rcases List.mem_cons.mp hT with h | h
          · simp [h]
          · exact ih false T h
        | true =>
          cases hK : (ks && t.keyPressed) with
          | true =>
            simp [holdLoop, hE, hF, hK] at hT; simp [hT]
          | false =>
            simp only [holdLoop, hE, hF, hK] at hT
            simp only [Bool.false_eq_true, if_false, Bool.not_true, if_true] at hT
            rcases List.mem_cons.mp hT with h | h
            · simp [h]
            · exact ih false T h

/-- The wait loop itself never raises: it only returns or runs out of
schedule. -/
lemma holdLoop_ne_raised (ak ks w : Bool) (ts : List Tick) :
    ∀ (en : Bool), ((holdLoop ak ks w en ts).2).isRaised = false := by
  induction ts with
  | nil => intro en; simp [holdLoop, Outcome.isRaised]
  | cons t rest ih =>
    intro en
    cases hE : (en || (w && t.workerFires)) with
    | true => simp [holdLoop, hE, Outcome.isRaised]
    | false =>
      cases hF : t.figsOpen with
      | false => simp [holdLoop, hE, hF, Outcome.isRaised]
      | true =>
        cases ak with
        | false => simpa [holdLoop, hE, hF] using ih false
        | true =>
          cases hK : (ks && t.keyPressed) with
          | true => simp [holdLoop, hE, hF, hK, Outcome.isRaised]
          | false => simpa [holdLoop, hE, hF, hK] using ih false

/-- The wait loop either returns or runs out of schedule. -/
lemma holdLoop_ret_or_fuel (ak ks w : Bool) (ts : List Tick) :
    ∀ (en : Bool), (holdLoop ak ks w en ts).2 = .ret ∨
      (holdLoop ak ks w en ts).2 = .fuelOut := by
  induction ts with
  | nil => intro en; right; rfl
  | cons t rest ih =>
    intro en
    cases hE : (en || (w && t.workerFires)) with
    | true => left; simp [holdLoop, hE]
    | false =>
      cases hF : t.figsOpen with
      | false => left; simp [holdLoop, hE, hF]
      | true =>
        cases ak with
        | false => simpa [holdLoop, hE, hF] using ih false
        | true =>
          cases hK : (ks && t.keyPressed) with
          | true => left; simp [holdLoop, hE, hF, hK]
          | false => simpa [holdLoop, hE, hF, hK] using ih false

/-- The exception-aware wait loop never raises the validation `ValueError`:
it returns, propagates an environment error, or runs out of schedule. -/
lemma holdLoopE_ne_raised (ak ks w : Bool) (ts : List TickE) :
    ∀ (en : Bool), ((holdLoopE ak ks w en ts).2).isRaised = false := by
  induction ts with
  | nil => intro en; rfl
  | cons t rest ih =>
    intro en
    cases hE : (en || (w && t.workerFires)) with
    | true => simp [holdLoopE, hE, Outcome.isRaised]
    | false =>
      cases hF : t.figsOpen with
      | false => simp [holdLoopE, hE, hF, Outcome.isRaised]
      | true =>
        cases ak with
        | false =>
          cases hP : t.pumpOk with
          | false => simp [holdLoopE, hE, hF, hP, Outcome.isRaised]
          | true => simpa [holdLoopE, hE, hF, hP] using ih false
        | true =>
          cases hK : (ks && t.keyPressed) with
          | true => simp [holdLoopE, hE, hF, hK, Outcome.isRaised]
          | false =>
            cases hP : t.pumpOk with
            | false => simp [holdLoopE, hE, hF, hK, hP, Outcome.isRaised]
            | true => simpa [holdLoopE, hE, hF, hK, hP] using ih false

/-- When no pump step fails, the exception-aware loop computes exactly what
`holdLoop` computes on the projected schedule. -/
lemma holdLoopE_toTick (ak ks w : Bool) :
    ∀ (ts : List TickE) (en : Bool), (∀ t ∈ ts, t.pumpOk = true) →
      holdLoopE ak ks w en ts = holdLoop ak ks w en (ts.map TickE.toTick)
  | [], _, _ => rfl
  | t :: rest, en, h => by
    have ht := h t (List.mem_cons_self t rest)
    have hrec := holdLoopE_toTick ak ks w rest false
      (fun b hb => h b (List.mem_cons_of_mem t hb))
    cases hE : (en || (w && t.workerFires)) with
    | true => simp [holdLoopE, holdLoop, TickE.toTick, hE]
    | false =>
      cases hF : t.figsOpen with
      | false => simp [holdLoopE, holdLoop, TickE.toTick, hE, hF]
      | true =>
        cases ak with
        | false => simp [holdLoopE, holdLoop, TickE.toTick, hE, hF, ht, hrec]
        | true =>
          cases hK : (ks && t.keyPressed) with
          | true => simp [holdLoopE, holdLoop, TickE.toTick, hE, hF, hK]
          | false =>
            simp [holdLoopE, holdLoop, TickE.toTick, hE, hF, hK, ht, hrec]

/-- If some iteration observes a true flag check or a true key poll, the loop
returns, and that iteration performs no event pump. -/
lemma holdLoop_pollTrue (ak ks w : Bool) (ts : List Tick) :
    ∀ (en : Bool), ∀ T ∈ (holdLoop ak ks w en ts).1,
      (Action.checkKey true ∈ T ∨ Action.checkEntered true ∈ T) →
      (holdLoop ak ks w en ts).2 = .ret ∧ Action.pump ∉ T := by
  induction ts with
  | nil => intro en T hT; simp [holdLoop] at hT
  | cons t rest ih =>
    intro en T hT hkey
    cases hE : (en || (w && t.workerFires)) with
    | true =>
      simp [holdLoop, hE] at hT
      simp [holdLoop, hE, hT]
    | false =>
      cases hF : t.figsOpen with
      | false =>
        simp [holdLoop, hE, hF] at hT
        subst hT
        simp at hkey
      | true =>
        cases ak with
        | false =>
          simp only [holdLoop, hE, hF] at hT ⊢
          simp only [Bool.false_eq_true, if_false, Bool.not_true, if_true] at hT ⊢
          rcases List.mem_cons.mp hT with h | h
          · subst h; simp at hkey
          · exact ih false T h hkey
        | true =>
          cases hK : (ks && t.keyPressed) with
          | true =>
            simp [holdLoop, hE, hF, hK] at hT
            simp [holdLoop, hE, hF, hK, hT]
          | false =>
            simp only [holdLoop, hE, hF, hK] at hT ⊢
            simp only [Bool.false_eq_true, if_false, Bool.not_true, if_true] at hT ⊢
            rcases List.mem_cons.mp hT with h | h
            · subst h; simp at hkey
            · exact ih false T h hkey

/-- Every `hold_windows` run either returns/raises before the loop with an
empty iteration list, or its iteration list and outcome are those of
`holdLoop` under one of the three trigger configurations. -/
lemma hold_windows_cases (e : Env) (reg : List String) (p : PromptArg)
    (trigger : String) (oitty : Bool) (ticks : List Tick) :
    (∃ ak ks w,
      (hold_windows e reg p trigger oitty ticks).tickTraces
        = (holdLoop ak ks w false ticks).1 ∧
      (hold_windows e reg p trigger oitty ticks).outcome
        = (holdLoop ak ks w false ticks).2) ∨
    ((hold_windows e reg p trigger oitty ticks).tickTraces = [] ∧
     ((hold_windows e reg p trigger oitty ticks).outcome = .ret ∨
      ((hold_windows e reg p trigger oitty ticks).outcome).isRaised = true)) := by
  unfold hold_windows
  split
  · right; simp
  · split
    · right; simp
    · split
      · right; simp [Outcome.isRaised]
      · by_cases hT : (trigger == "Enter") = true
        · left
          refine ⟨false, false, true, ?_, ?_⟩ <;> simp [hT]
        · by_cases hS : (_make_anykey_checker e).supported = true
          · left
            refine ⟨true, true, false, ?_, ?_⟩ <;> simp [hT, hS]
          · left
            refine ⟨true, false, true, ?_, ?_⟩ <;> simp [hT, hS]

lemma filter_length_zero {α : Type} (p : α → Bool) :
    ∀ (l : List α), (∀ a ∈ l, p a = false) → (l.filter p).length = 0
  | [], _ => rfl
  | a :: l, h => by
    have ha := h a (List.mem_cons_self a l)
    have hl := filter_length_zero p l (fun b hb => h b (List.mem_cons_of_mem a hb))
    simp [List.filter, ha, hl]

/-- Only flag checks, window checks, key polls and pumps occur inside loop
iterations. -/
lemma holdLoop_flatten_loopAct (ak ks w en : Bool) (ts : List Tick) :
    ∀ a ∈ ((holdLoop ak ks w en ts).1).flatten, isLoopAct a = true := by
  intro a ha
  rcases List.mem_flatten.mp ha with ⟨T, hT, haT⟩
  rcases holdLoop_shapes ak ks w ts en T hT with h | h | h | h | h <;>
    subst h <;> fin_cases haT <;> rfl

lemma countPumps_append (l₁ l₂ : List Action) :
    countPumps (l₁ ++ l₂) = countPumps l₁ + countPumps l₂ := by
  simp [countPumps, List.filter_append]

lemma countWarns_append (l₁ l₂ : List Action) :
    countWarns (l₁ ++ l₂) = countWarns l₁ + countWarns l₂ := by
  simp [countWarns, List.filter_append]

lemma countWarns_holdLoop (ak ks w en : Bool) (ts : List Tick) :
    countWarns (((holdLoop ak ks w en ts).1).flatten) = 0 := by
  refine filter_length_zero isWarn _ (fun a ha => ?_)
  have h := holdLoop_flatten_loopAct ak ks w en ts a ha
  cases a <;> first | rfl | (exfalso; simp [isLoopAct] at h)

lemma cbreakEnter_not_holdLoop (ak ks w en : Bool) (ts : List Tick) :
    Action.cbreakEnter ∉ ((holdLoop ak ks w en ts).1).flatten := by
  intro h
  have := holdLoop_flatten_loopAct ak ks w en ts _ h
  simp [isLoopAct] at this

lemma promptActs_mem (p : PromptArg) (trigger : String) :
    ∀ a ∈ promptActs p trigger, ∃ s, a = Action.printPrompt s := by
  cases p <;> intro a ha <;> simp [promptActs] at ha <;> exact ⟨_, ha⟩

lemma warnOnceActs_mem (reg : List String) (k? : Option String) :
    ∀ a ∈ (warnOnceActs reg k?).2, ∃ k, a = Action.warn k := by
  cases k? with
  | none => intro a ha; simp [warnOnceActs] at ha
  | some k =>
    intro a ha
    simp only [warnOnceActs, _warn_once] at ha
    by_cases hk : k ∈ reg <;> simp [hk] at ha
    exact ⟨k, ha⟩

lemma countPumps_promptActs (p : PromptArg) (trigger : String) :
    countPumps (promptActs p trigger) = 0 := by
  refine filter_length_zero isPump _ (fun a ha => ?_)
  rcases promptActs_mem p trigger a ha with ⟨s, rfl⟩
  rfl

lemma countWarns_promptActs (p : PromptArg) (trigger : String) :
    countWarns (promptActs p trigger) = 0 := by
  refine filter_length_zero isWarn _ (fun a ha => ?_)
  rcases promptActs_mem p trigger a ha with ⟨s, rfl⟩
  rfl

lemma cbreakEnter_not_promptActs (p : PromptArg) (trigger : String) :
    Action.cbreakEnter ∉ promptActs p trigger := by
  intro h
  rcases promptActs_mem p trigger _ h with ⟨s, hs⟩
  exact Action.noConfusion hs

lemma cbreakEnter_not_warnOnceActs (reg : List String) (k? : Option String) :
    Action.cbreakEnter ∉ (warnOnceActs reg k?).2 := by
  intro h
  rcases warnOnceActs_mem reg k? _ h with ⟨k, hk⟩
  exact Action.noConfusion hk

lemma countPumps_holdLoop_first_closed (ak ks w : Bool) (t : Tick)
    (rest : List Tick) (h : t.figsOpen = false) :
    countPumps (((holdLoop ak ks w false (t :: rest)).1).flatten) = 0 ∧
    (holdLoop ak ks w false (t :: rest)).2 = .ret := by
  cases hW : (w && t.workerFires) with
  | true => simp [holdLoop, hW, countPumps, isPump]
  | false => simp [holdLoop, hW, h, countPumps, isPump, List.filter]

lemma runTerm_no_cbreak {α : Type} (f : α → α) :
    ∀ (l : List Action) (st : TermState α),
      (∀ a ∈ l, a ≠ Action.cbreakEnter ∧ a ≠ Action.cbreakExit) →
      runTerm f st l = st
  | [], _, _ => rfl
  | a :: l, st, h => by
    have h1 := h a (List.mem_cons_self a l)
    have hstep : stepTerm f st a = st := by
      cases a <;> first | rfl | (exfalso; simp at h1)
    have hrec := runTerm_no_cbreak f l st
      (fun b hb => h b (List.mem_cons_of_mem a hb))
    calc runTerm f st (a :: l) = runTerm f (stepTerm f st a) l := rfl
      _ = runTerm f st l := by rw [hstep]
      _ = st := hrec

lemma hold_windows_nogui (e : Env) (reg : List String) (p : PromptArg)
    (trigger : String) (oitty : Bool) (ticks : List Tick)
    (h1 : _is_gui_backend e.backend = false) :
    hold_windows e reg p trigger oitty ticks = ⟨[], [], [], .ret, reg⟩ := by
  unfold hold_windows
  simp [h1]

lemma hold_windows_notty (e : Env) (reg : List String) (p : PromptArg)
    (trigger : String) (oitty : Bool) (ticks : List Tick)
    (h1 : _is_gui_backend e.backend = true)
    (h2 : (oitty && !(e.isatty == some true)) = true) :
    hold_windows e reg p trigger oitty ticks = ⟨[], [], [], .ret, reg⟩ := by
  unfold hold_windows
  simp [h1, h2]

lemma hold_windows_enter (e : Env) (reg : List String) (p : PromptArg)
    (oitty : Bool) (ticks : List Tick)
    (h1 : _is_gui_backend e.backend = true)
    (h2 : (oitty && !(e.isatty == some true)) = false) :
    hold_windows e reg p "Enter" oitty ticks =
      ⟨promptActs p "Enter" ++ [.spawnWorker],
       (holdLoop false false true false ticks).1, [],
       (holdLoop false false true false ticks).2, reg⟩ := by
  unfold hold_windows
  simp [h1, h2]

lemma hold_windows_anykey_sup (e : Env) (reg : List String) (p : PromptArg)
    (oitty : Bool) (ticks : List Tick)
    (h1 : _is_gui_backend e.backend = true)
    (h2 : (oitty && !(e.isatty == some true)) = false)
    (hS : (_make_anykey_checker e).supported = true) :
    hold_windows e reg p "AnyKey" oitty ticks =
      ⟨promptActs p "AnyKey" ++
        (warnOnceActs reg (_make_anykey_checker e).warnKey).2 ++
        (if (_make_anykey_checker e).usesCbreak then [.cbreakEnter] else []),
       (holdLoop true true false false ticks).1,
       (if (_make_anykey_checker e).usesCbreak
        then (if (holdLoop true true false false ticks).2 = .ret
              then [.cbreakExit] else [])
        else []),
       (holdLoop true true false false ticks).2,
       (warnOnceActs reg (_make_anykey_checker e).warnKey).1⟩ := by
  unfold hold_windows
  simp [h1, h2, hS]

lemma hold_windows_anykey_unsup (e : Env) (reg : List String) (p : PromptArg)
    (oitty : Bool) (ticks : List Tick)
    (h1 : _is_gui_backend e.backend = true)
    (h2 : (oitty && !(e.isatty == some true)) = false)
    (hS : (_make_anykey_checker e).supported = false) :
    hold_windows e reg p "AnyKey" oitty ticks =
      ⟨promptActs p "AnyKey" ++
        (warnOnceActs reg (_make_anykey_checker e).warnKey).2 ++ [.spawnWorker],
       (holdLoop true false true false ticks).1, [],
       (holdLoop true false true false ticks).2,
       (warnOnceActs reg (_make_anykey_checker e).warnKey).1⟩ := by
  unfold hold_windows
  simp [h1, h2, hS]

lemma hold_windowsE_nogui (scb : Bool) (e : Env) (reg : List String)
    (p : PromptArg) (trigger : String) (oitty : Bool) (ticks : List TickE)
    (h1 : _is_gui_backend e.backend = false) :
    hold_windowsE scb e reg p trigger oitty ticks = ⟨[], [], [], .ret, reg⟩ := by
  unfold hold_windowsE
  simp [h1]

lemma hold_windowsE_notty (scb : Bool) (e : Env) (reg : List String)
    (p : PromptArg) (trigger : String) (oitty : Bool) (ticks : List TickE)
    (h1 : _is_gui_backend e.backend = true)
    (h2 : (oitty && !(e.isatty == some true)) = true) :
    hold_windowsE scb e reg p trigger oitty ticks = ⟨[], [], [], .ret, reg⟩ := by
  unfold hold_windowsE
  simp [h1, h2]

lemma hold_windowsE_invalid (scb : Bool) (e : Env) (reg : List String)
    (p : PromptArg) (trigger : String) (oitty : Bool) (ticks : List TickE)
    (h1 : _is_gui_backend e.backend = true)
    (h2 : (oitty && !(e.isatty == some true)) = false)
    (h3 : (trigger != "Enter" && trigger != "AnyKey") = true) :
    hold_windowsE scb e reg p trigger oitty ticks =
      ⟨[], [], [], .raised ("Unknown trigger: " ++ trigger), reg⟩ := by
  unfold hold_windowsE
  simp [h1, h2, h3]

lemma hold_windowsE_enter (scb : Bool) (e : Env) (reg : List String)
    (p : PromptArg) (oitty : Bool) (ticks : List TickE)
    (h1 : _is_gui_backend e.backend = true)
    (h2 : (oitty && !(e.isatty == some true)) = false) :
    hold_windowsE scb e reg p "Enter" oitty ticks =
      ⟨promptActs p "Enter" ++ [.spawnWorker],
       (holdLoopE false false true false ticks).1, [],
       (holdLoopE false false true false ticks).2, reg⟩ := by
  unfold hold_windowsE
  simp [h1, h2]

lemma hold_windowsE_anykey_sup_raise (scb : Bool) (e : Env)
    (reg : List String) (p : PromptArg) (oitty : Bool) (ticks : List TickE)
    (h1 : _is_gui_backend e.backend = true)
    (h2 : (oitty && !(e.isatty == some true)) = false)
    (hS : (_make_anykey_checker e).supported = true)
    (hCB : ((_make_anykey_checker e).usesCbreak && !scb) = true) :
    hold_windowsE scb e reg p "AnyKey" oitty ticks =
      ⟨promptActs p "AnyKey" ++
        (warnOnceActs reg (_make_anykey_checker e).warnKey).2,
       [], [], .envError,
       (warnOnceActs reg (_make_anykey_checker e).warnKey).1⟩ := by
  unfold hold_windowsE
  simp [h1, h2, hS, hCB]

lemma hold_windowsE_anykey_sup (scb : Bool) (e : Env) (reg : List String)
    (p : PromptArg) (oitty : Bool) (ticks : List TickE)
    (h1 : _is_gui_backend e.backend = true)
    (h2 : (oitty && !(e.isatty == some true)) = false)
    (hS : (_make_anykey_checker e).supported = true)
    (hCB : ((_make_anykey_checker e).usesCbreak && !scb) = false) :
    hold_windowsE scb e reg p "AnyKey" oitty ticks =
      ⟨promptActs p "AnyKey" ++
        (warnOnceActs reg (_make_anykey_checker e).warnKey).2 ++
        (if (_make_anykey_checker e).usesCbreak then [.cbreakEnter] else []),
       (holdLoopE true true false false ticks).1,
       (if (_make_anykey_checker e).usesCbreak then
          (if (holdLoopE true true false false ticks).2 = .fuelOut then []
           else [.cbreakExit])
        else []),
       (holdLoopE true true false false ticks).2,
       (warnOnceActs reg (_make_anykey_checker e).warnKey).1⟩ := by
  unfold hold_windowsE
  simp [h1, h2, hS, hCB]

lemma hold_windowsE_anykey_unsup (scb : Bool) (e : Env) (reg : List String)
    (p : PromptArg) (oitty : Bool) (ticks : List TickE)
    (h1 : _is_gui_backend e.backend = true)
    (h2 : (oitty && !(e.isatty == some true)) = false)
    (hS : (_make_anykey_checker e).supported = false) :
    hold_windowsE scb e reg p "AnyKey" oitty ticks =
      ⟨promptActs p "AnyKey" ++
        (warnOnceActs reg (_make_anykey_checker e).warnKey).2 ++ [.spawnWorker],
       (holdLoopE true false true false ticks).1, [],
       (holdLoopE true false true false ticks).2,
       (warnOnceActs reg (_make_anykey_checker e).warnKey).1⟩ := by
  unfold hold_windowsE
  simp [h1, h2, hS]

/-- Conservativity: when entering cbreak succeeds and no pump step fails, the
exception-aware `hold_windowsE` computes exactly what `hold_windows` computes
on the projected schedule. -/
lemma hold_windowsE_toTick (e : Env) (reg : List String) (p : PromptArg)
    (trigger : String) (oitty : Bool) (ts : List TickE)
    (h : ∀ t ∈ ts, t.pumpOk = true) :
    hold_windowsE true e reg p trigger oitty ts =
      hold_windows e reg p trigger oitty (ts.map TickE.toTick) := by
  unfold hold_windowsE hold_windows
  split
  · rfl
  · split
    · rfl
    · split
      · rfl
      · by_cases hT : (trigger == "Enter") = true
        · simp [hT, holdLoopE_toTick false false true ts false h]
        · by_cases hS : (_make_anykey_checker e).supported = true
          · have hL := holdLoopE_toTick true true false ts false h
            by_cases hU : (_make_anykey_checker e).usesCbreak = true
            · rcases holdLoop_ret_or_fuel true true false
                (ts.map TickE.toTick) false with hr | hr <;>
                simp [hT, hS, hU, hL, hr]
            · simp [hT, hS, hU, hL]
          · simp [hT, hS, holdLoopE_toTick true false true ts false h]

lemma warn_calls_count_mem (k : String) :
    ∀ (calls reg : List String), k ∈ reg →
      ((_warn_once_calls reg calls).2.count k = 0)
  | [], _, _ => by simp [_warn_once_calls]
  | c :: cs, reg, h => by
    simp only [_warn_once_calls, _warn_once]
    by_cases hc : c ∈ reg
    · simpa [hc] using warn_calls_count_mem k cs reg h
    · have hck : ¬(c = k) := fun he => hc (he ▸ h)
      have hrec := warn_calls_count_mem k cs (c :: reg)
        (List.mem_cons_of_mem c h)
      simp [hc, List.count_cons, hck, hrec]

lemma warn_calls_count_le (k : String) :
    ∀ (calls reg : List String), ((_warn_once_calls reg calls).2.count k ≤ 1)
  | [], _ => by simp [_warn_once_calls]
  | c :: cs, reg => by
    simp only [_warn_once_calls, _warn_once]
    by_cases hc : c ∈ reg
    · simpa [hc] using warn_calls_count_le k cs reg
    · by_cases hck : c = k
      · subst hck
        have h0 := warn_calls_count_mem c cs (c :: reg)
          (List.mem_cons_self c reg)
        simp [hc, List.count_cons, h0]
      · have hrec := warn_calls_count_le k cs (c :: reg)
        simp [hc, List.count_cons, hck, hrec]

lemma countPumps_nil : countPumps [] = 0 := rfl

lemma countPumps_spawnList : countPumps [Action.spawnWorker] = 0 := rfl

lemma countPumps_cbreakEnterIf (b : Bool) :
    countPumps (if b then [Action.cbreakEnter] else []) = 0 := by
  cases b <;> rfl

lemma countPumps_cbreakExitIf (b : Bool) (o : Outcome) :
    countPumps (if b then (if o = Outcome.ret then [Action.cbreakExit] else [])
      else []) = 0 := by
  cases b
  · rfl
  · by_cases h : o = Outcome.ret <;> simp [h] <;> rfl

lemma countPumps_warnOnceActs (reg : List String) (k? : Option String) :
    countPumps (warnOnceActs reg k?).2 = 0 := by
  refine filter_length_zero isPump _ (fun a ha => ?_)
  rcases warnOnceActs_mem reg k? a ha with ⟨k, rfl⟩
  rfl

lemma holdLoop_flatten_no_cbreak (ak ks w en : Bool) (ts : List Tick) :
    ∀ a ∈ ((holdLoop ak ks w en ts).1).flatten,
      a ≠ Action.cbreakEnter ∧ a ≠ Action.cbreakExit := by
  intro a ha
  have h := holdLoop_flatten_loopAct ak ks w en ts a ha
  cases a <;> simp_all [isLoopAct]

lemma runTerm_append {α : Type} (f : α → α) (st : TermState α)
    (l₁ l₂ : List Action) :
    runTerm f st (l₁ ++ l₂) = runTerm f (runTerm f st l₁) l₂ := by
  simp [runTerm, List.foldl_append]

lemma warn_calls_reg_mono :
    ∀ (calls reg : List String), reg ⊆ (_warn_once_calls reg calls).1
  | [], reg => by simp [_warn_once_calls]
  | c :: cs, reg => by
    simp only [_warn_once_calls, _warn_once]
    by_cases hc : c ∈ reg
    · simpa [hc] using warn_calls_reg_mono cs reg
    · simp only [hc, if_neg, if_false]
      exact fun a ha =>
        warn_calls_reg_mono cs (c :: reg) (List.mem_cons_of_mem c ha)

/-- C9: for every warning key, across any sequence of `_warn_once` calls
(including the same key reached from different code paths), at most one
warning is emitted for that key, and the warned-keys registry only grows:
every key present before the calls is still present after them. -/
theorem C9_warn_once_at_most_one (reg calls : List String) (k : String) :
    ((_warn_once_calls reg calls).2.count k ≤ 1) ∧
    reg ⊆ (_warn_once_calls reg calls).1 :=
  ⟨warn_calls_count_le k calls reg, warn_calls_reg_mono calls reg⟩

/-- C10: `hold_windows` classifies the Matplotlib backend first; whenever the
backend is classified non-GUI it returns immediately with an empty trace (no
prompt printed, no warning, no worker spawned, no terminal resource, no event
pump), does not raise even for an invalid trigger, and leaves the warn-once
registry unchanged — for every trigger, prompt, `only_if_tty` flag, stdin
state and window schedule. The backend gate therefore precedes both the tty
gate and trigger validation. -/
theorem C10_backend_gate_first (e : Env) (reg : List String) (p : PromptArg)
    (trigger : String) (oitty : Bool) (ticks : List Tick)
    (h : _is_gui_backend e.backend = false) :
    (hold_windows e reg p trigger oitty ticks).trace = [] ∧
    (hold_windows e reg p trigger oitty ticks).outcome = .ret ∧
    (hold_windows e reg p trigger oitty ticks).reg = reg := by
  rw [hold_windows_nogui e reg p trigger oitty ticks h]
  simp [RunResult.trace]

/-- Witness for C10: the `agg` backend with an invalid trigger, a raising
stdin probe and an open window still returns at once with an empty trace. -/
theorem C10_witness :
    _is_gui_backend "agg" = false ∧
    (hold_windows envAgg ["x"] .dflt "Bogus" false [⟨false, true, false⟩]).trace
        = [] ∧
    (hold_windows envAgg ["x"] .dflt "Bogus" false
        [⟨false, true, false⟩]).outcome = .ret ∧
    (hold_windows envAgg ["x"] .dflt "Bogus" false [⟨false, true, false⟩]).reg
        = ["x"] :=
  ⟨by decide, C10_backend_gate_first envAgg ["x"] .dflt "Bogus" false
    [⟨false, true, false⟩] (by decide)⟩

/-- C7: with `only_if_tty = true` and a non-interactive stdin, `hold_windows`
returns immediately with an empty trace — in particular zero event-pump
calls — regardless of trigger kind, backend and open windows. -/
theorem C7_tty_gate (e : Env) (reg : List String) (p : PromptArg)
    (trigger : String) (ticks : List Tick)
    (h : e.isatty = some false) :
    (hold_windows e reg p trigger true ticks).trace = [] ∧
    countPumps (hold_windows e reg p trigger true ticks).trace = 0 ∧
    (hold_windows e reg p trigger true ticks).outcome = .ret := by
  cases hB : _is_gui_backend e.backend with
  | false =>
    rw [hold_windows_nogui _ _ _ _ _ _ hB]
    simp [RunResult.trace, countPumps]
  | true =>
    rw [hold_windows_notty _ _ _ _ _ _ hB (by simp [h])]
    simp [RunResult.trace, countPumps]

/-- Witness for C7: non-tty stdin, GUI backend, a window open, AnyKey
trigger. -/
theorem C7_witness :
    (hold_windows envNonTty [] .dflt "AnyKey" true [⟨false, true, false⟩]).trace
        = [] ∧
    countPumps (hold_windows envNonTty [] .dflt "AnyKey" true
        [⟨false, true, false⟩]).trace = 0 ∧
    (hold_windows envNonTty [] .dflt "AnyKey" true
        [⟨false, true, false⟩]).outcome = .ret :=
  C7_tty_gate envNonTty [] .dflt "AnyKey" [⟨false, true, false⟩] rfl

/-- Counterexample to C2 as stated: the claim says the worker sets the shared
flag on completion including when the read ends with an error, but when
`sys.stdin.readline()` raises, `_wait_for_enter` returns from the `except`
branch without calling `entered.set()`, leaving the flag unset. -/
theorem C2_counterexample : _wait_for_enter ReadOutcome.err = false := rfl

/-- C2 amended: the single-read worker sets the shared flag whenever the
blocking `readline` returns — including at EOF, where it returns the empty
string — but a read that raises leaves the flag unset. -/
theorem C2_amended (s : String) :
    _wait_for_enter (ReadOutcome.line s) = true ∧
    _wait_for_enter ReadOutcome.err = false :=
  ⟨rfl, rfl⟩

lemma hold_windows_invalid (e : Env) (reg : List String) (p : PromptArg)
    (trigger : String) (oitty : Bool) (ticks : List Tick)
    (h1 : _is_gui_backend e.backend = true)
    (h2 : (oitty && !(e.isatty == some true)) = false)
    (h3 : (trigger != "Enter" && trigger != "AnyKey") = true) :
    hold_windows e reg p trigger oitty ticks =
      ⟨[], [], [], .raised ("Unknown trigger: " ++ trigger), reg⟩ := by
  unfold hold_windows
  simp [h1, h2, h3]

/-- Counterexample to C3 as stated: a call with the invalid trigger `"Bogus"`
on a GUI backend but with non-interactive stdin returns normally instead of
raising, because the tty gate runs before trigger validation. -/
theorem C3_counterexample :
    (hold_windowsE true envNonTty [] .dflt "Bogus" true []).outcome = .ret ∧
    ("Bogus" ≠ "Enter" ∧ "Bogus" ≠ "AnyKey") := by
  refine ⟨by decide, by decide, by decide⟩

/-- C3 amended: `hold_windows` raises the validation `ValueError` exactly
when the backend gate passes (GUI backend), the tty gate passes
(`only_if_tty` false, or `isatty()` returns `True`), and the trigger is
outside `{"Enter", "AnyKey"}`. A valid trigger never raises `ValueError`,
but it does not always return normally: the second conjunct exhibits the
source's open error path, where `only_if_tty=False` with a non-tty stdin
that has a file descriptor reaches the supported AnyKey path and entering
cbreak raises `termios.error` out of `hold_windows` (a failing `plt.pause`
inside the pump's `except` handler propagates likewise, via `pumpOk`). -/
theorem C3_amended (scb : Bool) (e : Env) (reg : List String) (p : PromptArg)
    (trigger : String) (oitty : Bool) (ticks : List TickE) :
    (((hold_windowsE scb e reg p trigger oitty ticks).outcome).isRaised = true ↔
      (_is_gui_backend e.backend = true ∧
       (oitty = true → e.isatty = some true) ∧
       trigger ≠ "Enter" ∧ trigger ≠ "AnyKey")) ∧
    (hold_windowsE false envNonTty [] .noPrompt "AnyKey" false []).outcome
        = .envError := by
  refine ⟨?_, by decide⟩
  cases hB : _is_gui_backend e.backend with
  | false =>
    rw [hold_windowsE_nogui _ _ _ _ _ _ _ hB]
    simp [Outcome.isRaised]
  | true =>
    cases hG : (oitty && !(e.isatty == some true)) with
    | true =>
      rw [hold_windowsE_notty _ _ _ _ _ _ _ hB hG]
      simp only [Bool.and_eq_true, Bool.not_eq_true', beq_eq_false_iff_ne] at hG
      constructor
      · intro h; simp [Outcome.isRaised] at h
      · intro h; exact absurd (h.2.1 hG.1) hG.2
    | false =>
      by_cases hE : trigger = "Enter"
      · subst hE
        rw [hold_windowsE_enter _ _ _ _ _ _ hB hG]
        have hnr := holdLoopE_ne_raised false false true ticks false
        constructor
        · intro h
          rw [h] at hnr
          exact absurd hnr (by simp)
        · rintro ⟨-, -, h3, -⟩; exact absurd rfl h3
      · by_cases hA : trigger = "AnyKey"
        · subst hA
          cases hS : (_make_anykey_checker e).supported with
          | true =>
            cases hCB : ((_make_anykey_checker e).usesCbreak && !scb) with
            | true =>
              rw [hold_windowsE_anykey_sup_raise _ _ _ _ _ _ hB hG hS hCB]
              constructor
              · intro h; simp [Outcome.isRaised] at h
              · rintro ⟨-, -, -, h4⟩; exact absurd rfl h4
            | false =>
              rw [hold_windowsE_anykey_sup _ _ _ _ _ _ hB hG hS hCB]
              have hnr := holdLoopE_ne_raised true true false ticks false
              constructor
              · intro h
                rw [h] at hnr
                exact absurd hnr (by simp)
              · rintro ⟨-, -, -, h4⟩; exact absurd rfl h4
          | false =>
            rw [hold_windowsE_anykey_unsup _ _ _ _ _ _ hB hG hS]
            have hnr := holdLoopE_ne_raised true false true ticks false
            constructor
            · intro h
              rw [h] at hnr
              exact absurd hnr (by simp)
            · rintro ⟨-, -, -, h4⟩; exact absurd rfl h4
        · have h3 : (trigger != "Enter" && trigger != "AnyKey") = true := by
            simp [hE, hA]
          rw [hold_windowsE_invalid _ _ _ _ _ _ _ hB hG h3]
          simp only [Outcome.isRaised, true_iff]
          refine ⟨trivial, ?_, hE, hA⟩
          intro ho
          rw [ho] at hG
          simp at hG
          exact hG

/-- C6: for every trigger configuration, a loop iteration that observes a
true key poll or a true completion flag is the last: the run returns and no
event pump is issued in that iteration. -/
theorem C6_poll_true_returns (e : Env) (reg : List String) (p : PromptArg)
    (trigger : String) (oitty : Bool) (ticks : List Tick) :
    ∀ T ∈ (hold_windows e reg p trigger oitty ticks).tickTraces,
      (Action.checkKey true ∈ T ∨ Action.checkEntered true ∈ T) →
      (hold_windows e reg p trigger oitty ticks).outcome = .ret ∧
      Action.pump ∉ T := by
  intro T hT hkey
  rcases hold_windows_cases e reg p trigger oitty ticks with
    ⟨ak, ks, w, hEq1, hEq2⟩ | ⟨hEq, -⟩
  · rw [hEq1] at hT
    rw [hEq2]
    exact holdLoop_pollTrue ak ks w ticks false T hT hkey
  · rw [hEq] at hT
    simp at hT

/-- Witness for C6: an AnyKey run whose second iteration sees the key poll
fire returns without pumping in that iteration. -/
theorem C6_witness :
    (hold_windows envPosix [] .noPrompt "AnyKey" true
        [⟨false, true, false⟩, ⟨false, true, true⟩]).outcome = .ret ∧
    Action.pump ∉ [Action.checkEntered false, Action.checkFigs true,
        Action.checkKey true] :=
  C6_poll_true_returns envPosix [] .noPrompt "AnyKey" true
    [⟨false, true, false⟩, ⟨false, true, true⟩]
    [Action.checkEntered false, Action.checkFigs true, Action.checkKey true]
    (by decide) (by decide)

/-- C5: the `_cbreak` scope restores the terminal attribute snapshot taken by
`tcgetattr` before `tty.setcbreak` on every exit path — the body raising
included — and re-propagates the body's exit unchanged; consequently a
completed `hold_windows(trigger="AnyKey")` run on the supported POSIX path
(imports and `fileno` succeed) leaves the terminal attributes equal to the
initial snapshot. -/
theorem C5_cbreak_restores {α : Type} (f : α → α) (body : BodyExit) (init : α)
    (e : Env) (reg : List String) (p : PromptArg) (oitty : Bool)
    (ticks : List Tick)
    (hgui : _is_gui_backend e.backend = true)
    (htty : (oitty && !(e.isatty == some true)) = false)
    (hwin : e.platformWin = false) (himp : e.posixImportsOk = true)
    (hfd : e.filenoOk = true)
    (hdone : (hold_windows e reg p "AnyKey" oitty ticks).outcome ≠ .fuelOut) :
    (_cbreak true f true body init).1 = init ∧
    (_cbreak true f true body init).2 = body ∧
    (runTerm f ⟨init, none⟩
      (hold_windows e reg p "AnyKey" oitty ticks).trace).attrs = init := by
  refine ⟨rfl, rfl, ?_⟩
  have hchk : _make_anykey_checker e = ⟨true, true, none⟩ := by
    simp [_make_anykey_checker, hwin, himp, hfd]
  have hsup : (_make_anykey_checker e).supported = true := by rw [hchk]
  rw [hold_windows_anykey_sup e reg p oitty ticks hgui htty hsup] at hdone ⊢
  have hLret : (holdLoop true true false false ticks).2 = .ret := by
    rcases holdLoop_ret_or_fuel true true false ticks false with hL | hL
    · exact hL
    · exact absurd (by simpa using hL) hdone
  simp only [RunResult.trace, hchk, warnOnceActs, hLret, if_true,
    List.append_nil]
  rw [runTerm_append, runTerm_append, runTerm_append]
  rw [runTerm_no_cbreak f (promptActs p "AnyKey") ⟨init, none⟩ (fun a ha => by
    rcases promptActs_mem p "AnyKey" a ha with ⟨s, rfl⟩
    exact ⟨by simp, by simp⟩)]
  rw [show runTerm f (⟨init, none⟩ : TermState α) [Action.cbreakEnter] =
      ⟨f init, some init⟩ from rfl]
  rw [runTerm_no_cbreak f _ _ (holdLoop_flatten_no_cbreak true true false
    false ticks)]
  rfl

/-- Witness for C5: a raising body on a fully capable POSIX environment whose
single loop check finds all windows closed. -/
theorem C5_witness :
    (_cbreak true Nat.succ true BodyExit.raised 0).1 = 0 ∧
    (_cbreak true Nat.succ true BodyExit.raised 0).2 = BodyExit.raised ∧
    (runTerm Nat.succ ⟨0, none⟩
      (hold_windows envPosix [] .noPrompt "AnyKey" true
        [⟨false, false, false⟩]).trace).attrs = 0 :=
  C5_cbreak_restores Nat.succ BodyExit.raised 0 envPosix [] .noPrompt true
    [⟨false, false, false⟩] (by decide) (by decide) rfl rfl rfl (by decide)

/-- Counterexample to C4 as stated: in an Enter-trigger tick the completion
flag check — the Enter trigger's poll — precedes the window-open check, so
the claimed window-check-before-key-check order fails. -/
theorem C4_counterexample :
    [Action.checkEntered false, Action.checkFigs true, Action.pump] ∈
      (hold_windows envPosix [] .noPrompt "Enter" true
        [⟨false, true, false⟩]).tickTraces ∧
    noneAfter isKeyCheck isWinCheck
      [Action.checkEntered false, Action.checkFigs true, Action.pump] = false := by
  decide

/-- C4 amended: within every tick the steps occur in the fixed order
completion-flag check (`entered.is_set()`, which for the Enter trigger and
the AnyKey fallback is the trigger poll), then window-open check, then — for
AnyKey — the `key_pressed()` poll, then the event pump, with later steps
skipped after a terminating check and no tick reordering them. So the window
check precedes the `key_pressed()` poll and the pump, but the flag check
precedes the window check rather than following it. -/
theorem C4_amended (e : Env) (reg : List String) (p : PromptArg)
    (trigger : String) (oitty : Bool) (ticks : List Tick) :
    ∀ T ∈ (hold_windows e reg p trigger oitty ticks).tickTraces,
      noneAfter isKeyPoll isWinCheck T = true ∧
      noneAfter isPump isKeyPoll T = true ∧
      noneAfter isWinCheck isEnteredCheck T = true ∧
      noneAfter isPump isWinCheck T = true := by
  intro T hT
  rcases hold_windows_cases e reg p trigger oitty ticks with
    ⟨ak, ks, w, hEq1, -⟩ | ⟨hEq, -⟩
  · rw [hEq1] at hT
    rcases holdLoop_shapes ak ks w ticks false T hT with h | h | h | h | h <;>
      subst h <;> exact ⟨rfl, rfl, rfl, rfl⟩
  · rw [hEq] at hT
    simp at hT

/-- Witness for C4: the full AnyKey tick shape satisfies the amended
ordering. -/
theorem C4_witness :
    noneAfter isKeyPoll isWinCheck
      [Action.checkEntered false, Action.checkFigs true, Action.checkKey false,
       Action.pump] = true ∧
    noneAfter isPump isKeyPoll
      [Action.checkEntered false, Action.checkFigs true, Action.checkKey false,
       Action.pump] = true ∧
    noneAfter isWinCheck isEnteredCheck
      [Action.checkEntered false, Action.checkFigs true, Action.checkKey false,
       Action.pump] = true ∧
    noneAfter isPump isWinCheck
      [Action.checkEntered false, Action.checkFigs true, Action.checkKey false,
       Action.pump] = true :=
  C4_amended envPosix [] .noPrompt "AnyKey" true
    [⟨false, true, false⟩, ⟨false, false, false⟩]
    [Action.checkEntered false, Action.checkFigs true, Action.checkKey false,
     Action.pump] (by decide)

/-- Counterexample to C1 as stated: with zero windows open at entry and the
AnyKey trigger on a capable POSIX tty, `hold_windows` still acquires the
cbreak terminal resource (the `with key_ctx:` block is entered before the
first window check), though it pumps no events. -/
theorem C1_counterexample :
    Action.cbreakEnter ∈
      (hold_windows envPosix [] .dflt "AnyKey" true
        [⟨false, false, false⟩]).trace ∧
    countPumps ((hold_windows envPosix [] .dflt "AnyKey" true
        [⟨false, false, false⟩]).trace) = 0 := by
  decide

/-- C1 amended: for either valid trigger, if zero windows are open at the
first loop check, `hold_windows` returns with zero event-pump calls; with the
Enter trigger no terminal resource is ever acquired, while with AnyKey on the
supported POSIX path the cbreak resource is acquired before the first check
and released again on return (acquisition implies release). -/
theorem C1_amended (e : Env) (reg : List String) (p : PromptArg)
    (trigger : String) (oitty : Bool) (t : Tick) (rest : List Tick)
    (hval : trigger = "Enter" ∨ trigger = "AnyKey")
    (hfigs : t.figsOpen = false) :
    countPumps (hold_windows e reg p trigger oitty (t :: rest)).trace = 0 ∧
    (hold_windows e reg p trigger oitty (t :: rest)).outcome = .ret ∧
    (trigger = "Enter" → Action.cbreakEnter ∉
      (hold_windows e reg p trigger oitty (t :: rest)).trace) ∧
    (Action.cbreakEnter ∈ (hold_windows e reg p trigger oitty (t :: rest)).trace →
      Action.cbreakExit ∈ (hold_windows e reg p trigger oitty (t :: rest)).trace) := by
  cases hB : _is_gui_backend e.backend with
  | false =>
    rw [hold_windows_nogui _ _ _ _ _ _ hB]
    simp [RunResult.trace, countPumps]
  | true =>
    cases hG : (oitty && !(e.isatty == some true)) with
    | true =>
      rw [hold_windows_notty _ _ _ _ _ _ hB hG]
      simp [RunResult.trace, countPumps]
    | false =>
      rcases hval with rfl | rfl
      · rw [hold_windows_enter _ _ _ _ _ hB hG]
        obtain ⟨hc, hr⟩ :=
          countPumps_holdLoop_first_closed false false true t rest hfigs
        have hni : Action.cbreakEnter ∉
            (RunResult.mk (promptActs p "Enter" ++ [Action.spawnWorker])
              (holdLoop false false true false (t :: rest)).1 []
              (holdLoop false false true false (t :: rest)).2 reg).trace := by
          intro hmem
          simp [RunResult.trace] at hmem
          rcases hmem with h | h
          · exact absurd h (cbreakEnter_not_promptActs p "Enter")
          · exact absurd (List.mem_flatten.mpr h) (cbreakEnter_not_holdLoop _ _ _ _ _)
        refine ⟨?_, hr, fun _ => hni, fun hmem => absurd hmem hni⟩
        simp only [RunResult.trace, List.append_nil]
        rw [countPumps_append, countPumps_append, countPumps_promptActs,
          countPumps_spawnList, hc]
      · cases hS : (_make_anykey_checker e).supported with
        | true =>
          rw [hold_windows_anykey_sup _ _ _ _ _ hB hG hS]
          obtain ⟨hc, hr⟩ :=
            countPumps_holdLoop_first_closed true true false t rest hfigs
          refine ⟨?_, hr, fun h => absurd h (by decide), ?_⟩
          · simp only [RunResult.trace]
            rw [countPumps_append, countPumps_append, countPumps_append,
              countPumps_append, countPumps_promptActs,
              countPumps_warnOnceActs, countPumps_cbreakEnterIf, hc,
              countPumps_cbreakExitIf]
          · intro hmem
            cases hU : (_make_anykey_checker e).usesCbreak with
            | true => simp [RunResult.trace, hU, hr]
            | false =>
              simp [RunResult.trace, hU] at hmem
              rcases hmem with h | h | h
              · exact absurd h (cbreakEnter_not_promptActs p "AnyKey")
              · exact absurd h (cbreakEnter_not_warnOnceActs reg _)
              · exact absurd (List.mem_flatten.mpr h) (cbreakEnter_not_holdLoop _ _ _ _ _)
        | false =>
          rw [hold_windows_anykey_unsup _ _ _ _ _ hB hG hS]
          obtain ⟨hc, hr⟩ :=
            countPumps_holdLoop_first_closed true false true t rest hfigs
          have hni : Action.cbreakEnter ∉
              (RunResult.mk (promptActs p "AnyKey" ++
                (warnOnceActs reg (_make_anykey_checker e).warnKey).2 ++
                [Action.spawnWorker])
                (holdLoop true false true false (t :: rest)).1 []
                (holdLoop true false true false (t :: rest)).2
                (warnOnceActs reg (_make_anykey_checker e).warnKey).1).trace := by
            intro hmem
            simp [RunResult.trace] at hmem
            rcases hmem with h | h | h
            · exact absurd h (cbreakEnter_not_promptActs p "AnyKey")
            · exact absurd h (cbreakEnter_not_warnOnceActs reg _)
            · exact absurd (List.mem_flatten.mpr h) (cbreakEnter_not_holdLoop _ _ _ _ _)
          refine ⟨?_, hr, fun h => absurd h (by decide),
            fun hmem => absurd hmem hni⟩
          simp only [RunResult.trace, List.append_nil]
          rw [countPumps_append, countPumps_append, countPumps_append,
            countPumps_promptActs, countPumps_warnOnceActs,
            countPumps_spawnList, hc]

/-- Witness for C1: zero windows at entry with the Enter trigger — no pump,
immediate return, no terminal resource. -/
theorem C1_witness :
    countPumps (hold_windows envPosix [] .dflt "Enter" true
      [⟨false, false, false⟩]).trace = 0 ∧
    (hold_windows envPosix [] .dflt "Enter" true
      [⟨false, false, false⟩]).outcome = .ret ∧
    ("Enter" = "Enter" → Action.cbreakEnter ∉
      (hold_windows envPosix [] .dflt "Enter" true
        [⟨false, false, false⟩]).trace) ∧
    (Action.cbreakEnter ∈ (hold_windows envPosix [] .dflt "Enter" true
        [⟨false, false, false⟩]).trace →
      Action.cbreakExit ∈ (hold_windows envPosix [] .dflt "Enter" true
        [⟨false, false, false⟩]).trace) :=
  C1_amended envPosix [] .dflt "Enter" true ⟨false, false, false⟩ []
    (Or.inl rfl) rfl

/-- C8: when no platform mechanism for AnyKey detection is available (the
`msvcrt` import fails on Windows, or on POSIX the `select`/`termios`/`tty`
imports fail or stdin has no file descriptor), the checker reports
`supported = false`, `hold_windows(trigger="AnyKey")` falls back to Enter
semantics by spawning the blocking line-read worker, exactly one warning is
emitted for the missing capability (with a fresh warn-once registry), and no
terminal resource is acquired. -/
theorem C8_anykey_fallback (e : Env) (p : PromptArg) (ticks : List Tick)
    (hgui : _is_gui_backend e.backend = true)
    (htty : e.isatty = some true)
    (hcap : (e.platformWin = true ∧ e.msvcrtOk = false) ∨
            (e.platformWin = false ∧
              (e.posixImportsOk = false ∨ e.filenoOk = false))) :
    (_make_anykey_checker e).supported = false ∧
    Action.spawnWorker ∈ (hold_windows e [] p "AnyKey" true ticks).trace ∧
    countWarns (hold_windows e [] p "AnyKey" true ticks).trace = 1 ∧
    Action.cbreakEnter ∉ (hold_windows e [] p "AnyKey" true ticks).trace := by
  have hchk : ∃ k, _make_anykey_checker e =
      ⟨false, false, some k⟩ := by
    rcases hcap with ⟨hw, hm⟩ | ⟨hw, hc⟩
    · exact ⟨"hold_windows:anykey_import",
        by simp [_make_anykey_checker, hw, hm]⟩
    · by_cases hpi : e.posixImportsOk = true
      · have hfd : e.filenoOk = false := by
          rcases hc with h | h
          · rw [h] at hpi; exact absurd hpi (by simp)
          · exact h
        exact ⟨"hold_windows:anykey_fileno",
          by simp [_make_anykey_checker, hw, hpi, hfd]⟩
      · have hpi2 : e.posixImportsOk = false := by
          cases h : e.posixImportsOk
          · rfl
          · exact absurd h hpi
        exact ⟨"hold_windows:anykey_import",
          by simp [_make_anykey_checker, hw, hpi2]⟩
  rcases hchk with ⟨k, hchk⟩
  have hsup : (_make_anykey_checker e).supported = false := by rw [hchk]
  rw [hold_windows_anykey_unsup e [] p true ticks hgui (by simp [htty]) hsup]
  have hwa : warnOnceActs [] (_make_anykey_checker e).warnKey =
      ([k], [Action.warn k]) := by
    rw [hchk]
    simp [warnOnceActs, _warn_once]
  refine ⟨hsup, ?_, ?_, ?_⟩
  · simp [RunResult.trace]
  · simp only [RunResult.trace, hwa, List.append_nil]
    rw [countWarns_append, countWarns_append, countWarns_append,
      countWarns_promptActs, countWarns_holdLoop]
    rfl
  · intro hmem
    simp [RunResult.trace, hwa] at hmem
    rcases hmem with h | h
    · exact absurd h (cbreakEnter_not_promptActs p "AnyKey")
    · exact absurd (List.mem_flatten.mpr h)
        (cbreakEnter_not_holdLoop _ _ _ _ _)

/-- Witness for C8: a POSIX environment whose `select`/`termios`/`tty`
imports fail. -/
theorem C8_witness :
    (_make_anykey_checker envPosixNoImports).supported = false ∧
    Action.spawnWorker ∈ (hold_windows envPosixNoImports [] .noPrompt "AnyKey"
      true [⟨false, true, false⟩]).trace ∧
    countWarns (hold_windows envPosixNoImports [] .noPrompt "AnyKey" true
      [⟨false, true, false⟩]).trace = 1 ∧
    Action.cbreakEnter ∉ (hold_windows envPosixNoImports [] .noPrompt "AnyKey"
      true [⟨false, true, false⟩]).trace :=
  C8_anykey_fallback envPosixNoImports .noPrompt [⟨false, true, false⟩]
    (by decide) rfl (Or.inr ⟨rfl, Or.inl rfl⟩)

end MplNonblock
